import Mathlib

/-!
Verification of the voice-command dispatch engine of the `dasie` repository
(`src/command_engine.py`, class `CommandEngine`).

The engine is embedded shallowly:

* the command whitelist and the child-process environment are insertion-ordered
  association lists (Python 3.7+ `dict` semantics: assignment to an existing
  key keeps its position, a new key is appended);
* the operating system is an oracle (`World`): existence and executability of
  paths, the outcome of running a script, and the current wall-clock time;
* observable side effects (existence checks, `subprocess.run`, appends to the
  acknowledgment log) are recorded in an explicit effect trace;
* `os.environ` is threaded explicitly; the code only ever copies it, and the
  embedding returns the (unchanged) parent environment so that the frame
  property is statable;
* Python string containment (`needle in haystack`) is an executable substring
  search over the character list.
-/

namespace CommandEngine

/-- Leading-segment test on character lists: `leadMatch n h` holds when `n` is
an initial segment of `h` (one alignment step of Python substring search). -/
def leadMatch : List Char → List Char → Bool
  | [], _ => true
  | _ :: _, [] => false
  | a :: n, b :: h => decide (a = b) && leadMatch n h

/-- Occurrence search on character lists: `subSearch n h` holds when `n`
occurs contiguously somewhere in `h`. -/
def subSearch (n : List Char) : List Char → Bool
  | [] => leadMatch n []
  | b :: h => leadMatch n (b :: h) || subSearch n h

/-- Python's `needle in haystack` on strings. -/
def strContains (haystack needle : String) : Bool :=
  subSearch needle.data haystack.data

/-- Lookup `d[k]` in an insertion-ordered association list (Python `dict`). -/
def dict_get {α : Type} : List (String × α) → String → Option α
  | [], _ => none
  | q :: l, k => if q.1 = k then some q.2 else dict_get l k

/-- Assignment `d[k] = v` on an insertion-ordered association list: an existing
key keeps its position and gets the new value, a new key is appended at the
end (Python `dict` semantics). -/
def dict_set {α : Type} : List (String × α) → String → α → List (String × α)
  | [], k, v => [(k, v)]
  | q :: l, k, v => if q.1 = k then (k, v) :: l else q :: dict_set l k v

/-- Python `s.lower()`: lower-case every character. -/
def pyLower (s : String) : String :=
  ⟨s.data.map Char.toLower⟩

/-- Python `s.strip()`: drop whitespace from both ends. -/
def pyStrip (s : String) : String :=
  ⟨((s.data.dropWhile fun c => c.isWhitespace).reverse.dropWhile
      fun c => c.isWhitespace).reverse⟩

/-- Normalization applied by `process_voice_command` line 59:
`command_text.lower().strip()`. -/
def normalize (s : String) : String :=
  pyStrip (pyLower s)

/-- Python truthiness of an optional string: `None` and `""` are falsy. -/
def pyTruthy : Option String → Bool
  | none => false
  | some s => decide (s ≠ "")

/-- Value of one whitelist entry: the `script` / `description` /
`requires_confirmation` dictionary built in `CommandEngine.__init__`. -/
structure CommandConfig where
  script : Option String
  description : String
  requires_confirmation : Bool
deriving DecidableEq

/-- Seed whitelist from `CommandEngine.__init__`, in insertion order. -/
def default_whitelist : List (String × CommandConfig) :=
  [ ("start patching",
      { script := some "scripts/patch_r2s.sh",
        description := "Initiate automated patching process",
        requires_confirmation := false }),
    ("quarantine servers",
      { script := some "scripts/isolate.sh",
        description := "Isolate affected systems",
        requires_confirmation := true }),
    ("acknowledge incident",
      { script := none,
        description := "Log incident acknowledgment",
        requires_confirmation := false }),
    ("emergency shutdown",
      { script := some "scripts/emergency_shutdown.sh",
        description := "Emergency system shutdown",
        requires_confirmation := true }),
    ("status report",
      { script := some "scripts/status_check.sh",
        description := "Generate system status report",
        requires_confirmation := false }) ]

/-- Fuzzy keyword table from `CommandEngine._match_command`, in insertion
order. -/
def fuzzy_matches : List (String × String) :=
  [ ("patch", "start patching"),
    ("quarantine", "quarantine servers"),
    ("isolate", "quarantine servers"),
    ("acknowledge", "acknowledge incident"),
    ("ack", "acknowledge incident"),
    ("shutdown", "emergency shutdown"),
    ("status", "status report"),
    ("report", "status report") ]

/-- One audit-trail record, as built by `CommandEngine._log_command`. -/
structure LogEntry where
  timestamp : String
  command : String
  cve_id : Option String
  source : String
deriving DecidableEq

/-- Mutable state of a `CommandEngine` object. -/
structure EngineState where
  scripts_dir : String
  command_history : List LogEntry
  command_whitelist : List (String × CommandConfig)
deriving DecidableEq

/-- Engine state right after `CommandEngine.__init__` with default arguments. -/
def initial_state : EngineState :=
  { scripts_dir := "scripts",
    command_history := [],
    command_whitelist := default_whitelist }

/-- Outcome of `subprocess.run` on a script, as observed by the engine:
a completed process with an exit code and captured output, a wall-clock
timeout (`subprocess.TimeoutExpired`), or any other raised exception. -/
inductive RunResult where
  | completed (returncode : Int) (stdout stderr : String)
  | timedOut
  | raised (message : String)
deriving DecidableEq

/-- Observable side effects of dispatching one command. -/
inductive Effect where
  | checkExists (path : String)
  | checkExecutable (path : String)
  | spawn (path : String) (env : List (String × String))
  | appendAckLog (line : String)
deriving DecidableEq

/-- Read-only oracle for the operating system: path existence and
executability, the outcome of running a script in a given environment, and
`datetime.now().isoformat()`. -/
structure World where
  pathExists : String → Bool
  isExecutable : String → Bool
  run : String → List (String × String) → RunResult
  now : String

/-- Result of one dispatch: the user-facing message, the effect trace, and
the parent environment after the call. -/
structure ExecOutcome where
  message : String
  effects : List Effect
  environ_after : List (String × String)
deriving DecidableEq

/-- `CommandEngine._match_command`: direct substring match over the whitelist
in insertion order first, then the fuzzy keyword table in insertion order.
The Python code indexes `self.command_whitelist[trigger]` on a fuzzy hit and
would raise `KeyError` when the target trigger is missing; the engine never
removes entries, so that branch is unreachable for any whitelist containing
the five default triggers, and the embedding returns no match there. -/
def match_command (whitelist : List (String × CommandConfig))
    (command_text : String) : Option (String × CommandConfig) :=
  match whitelist.find? (fun p => strContains command_text p.1) with
  | some p => some p
  | none =>
    match fuzzy_matches.find? (fun p => strContains command_text p.1) with
    | some p =>
      match dict_get whitelist p.2 with
      | some config => some (p.2, config)
      | none => none
    | none => none

/-- Environment handed to the child process (`CommandEngine._execute_script`
lines 164-167): `env = os.environ.copy()`, then `env["CVE_ID"] = cve_id` when
`cve_id` is truthy, then `env["TIMESTAMP"] = datetime.now().isoformat()`. -/
def child_env (environ : List (String × String)) (cve_id : Option String)
    (now : String) : List (String × String) :=
  let env := environ
  let env := if pyTruthy cve_id then dict_set env "CVE_ID" (cve_id.getD "") else env
  dict_set env "TIMESTAMP" now

/-- `CommandEngine._execute_script`: existence check, executability check,
then `subprocess.run` with the augmented environment; every outcome is mapped
to a message string. -/
def execute_script (environ : List (String × String)) (w : World)
    (script_path command_name : String) (cve_id : Option String) : ExecOutcome :=
  if w.pathExists script_path = false then
    { message := "Script " ++ script_path ++ " not found. Please check configuration.",
      effects := [Effect.checkExists script_path],
      environ_after := environ }
  else if w.isExecutable script_path = false then
    { message := "Script " ++ script_path ++ " is not executable.",
      effects := [Effect.checkExists script_path, Effect.checkExecutable script_path],
      environ_after := environ }
  else
    let env := child_env environ cve_id w.now
    let effs := [Effect.checkExists script_path, Effect.checkExecutable script_path,
                 Effect.spawn script_path env]
    match w.run script_path env with
    | RunResult.completed rc _ _ =>
      if rc = 0 then
        { message := command_name ++ " completed successfully.",
          effects := effs, environ_after := environ }
      else
        { message := command_name ++ " failed. Check logs for details.",
          effects := effs, environ_after := environ }
    | RunResult.timedOut =>
      { message := command_name ++ " timed out after 5 minutes.",
        effects := effs, environ_after := environ }
    | RunResult.raised e =>
      { message := "Error executing " ++ command_name ++ ": " ++ e,
        effects := effs, environ_after := environ }

/-- `CommandEngine._handle_acknowledgment`: build the acknowledgment message,
append one line to the acknowledgment log, return the fixed confirmation. -/
def handle_acknowledgment (environ : List (String × String)) (w : World)
    (cve_id : Option String) : ExecOutcome :=
  let timestamp := w.now
  let ack_message := "Incident acknowledged at " ++ timestamp
  let ack_message :=
    if pyTruthy cve_id then ack_message ++ " for " ++ cve_id.getD "" else ack_message
  { message := "Incident acknowledged and logged.",
    effects := [Effect.appendAckLog (timestamp ++ ": " ++ ack_message ++ "\n")],
    environ_after := environ }

/-- `CommandEngine._execute_command`: the trigger named `acknowledge incident`
goes to the built-in handler, an entry with a truthy script path goes to
`execute_script`, anything else gets the no-action-configured message. The
`original_text` argument is accepted and ignored, as in the source. -/
def execute_command (environ : List (String × String)) (w : World)
    (command_config : String × CommandConfig) (original_text : String)
    (cve_id : Option String) : ExecOutcome :=
  let trigger := command_config.1
  let script_path := command_config.2.script
  if trigger = "acknowledge incident" then
    handle_acknowledgment environ w cve_id
  else if pyTruthy script_path then
    execute_script environ w (script_path.getD "") trigger cve_id
  else
    { message := "Command '" ++ trigger ++ "' recognized but no action configured.",
      effects := [],
      environ_after := environ }

/-- `CommandEngine._log_command`: append one audit record to the in-memory
history. -/
def log_command (w : World) (st : EngineState) (command_text : String)
    (cve_id : Option String) : EngineState :=
  { st with command_history := st.command_history ++
      [{ timestamp := w.now, command := command_text, cve_id := cve_id,
         source := "voice_command" }] }

/-- Python `sep.join(l)`. -/
def strJoin (sep : String) : List String → String
  | [] => ""
  | [s] => s
  | s :: l => s ++ sep ++ strJoin sep l

/-- `CommandEngine._get_help_response`: enumerate the whitelist keys. -/
def get_help_response (st : EngineState) : String :=
  let available_commands := st.command_whitelist.map Prod.fst
  let commands_text := strJoin "', '" available_commands
  "Unknown command. Available commands: '" ++ commands_text ++ "'. Please try again."

/-- Result of one `process_voice_command` call. -/
structure ProcessOutcome where
  response : String
  state_after : EngineState
  effects : List Effect
  environ_after : List (String × String)
deriving DecidableEq

/-- `CommandEngine.process_voice_command`: normalize, log, match, dispatch. -/
def process_voice_command (environ : List (String × String)) (w : World)
    (st : EngineState) (command_text : String) (cve_id : Option String) :
    ProcessOutcome :=
  let command_text := normalize command_text
  let st := log_command w st command_text cve_id
  match match_command st.command_whitelist command_text with
  | none =>
    { response := get_help_response st, state_after := st,
      effects := [], environ_after := environ }
  | some matched =>
    let r := execute_command environ w matched command_text cve_id
    { response := r.message, state_after := st,
      effects := r.effects, environ_after := r.environ_after }

/-- `CommandEngine.add_custom_command`: unconditional dictionary assignment
under the lower-cased trigger; custom commands require confirmation. -/
def add_custom_command (st : EngineState) (trigger script_path description : String) :
    EngineState :=
  let config : CommandConfig :=
    { script := some script_path, description := description,
      requires_confirmation := true }
  { st with command_whitelist := dict_set st.command_whitelist (pyLower trigger) config }

/-- Minimal object-identity model for Python lists, used for
`CommandEngine.get_command_history` (`return self.command_history.copy()`):
a heap maps references to list contents, and `copy()` allocates a fresh
reference with the same contents. -/
structure Heap where
  cells : Nat → List LogEntry
  next : Nat

/-- Reference to the engine's own `command_history` list object. -/
structure EngineRef where
  histRef : Nat

/-- Python `list.copy()`: allocate a fresh reference holding the same
contents as the list at `r`. -/
def list_copy (h : Heap) (r : Nat) : Nat × Heap :=
  (h.next,
   { cells := fun n => if n = h.next then h.cells r else h.cells n,
     next := h.next + 1 })

/-- `CommandEngine.get_command_history`: `return self.command_history.copy()`. -/
def get_command_history (h : Heap) (e : EngineRef) : Nat × Heap :=
  list_copy h e.histRef

/-- Caller-side mutation of the list object at `r` (append, remove, reorder:
any replacement of its contents). -/
def heap_write (h : Heap) (r : Nat) (l : List LogEntry) : Heap :=
  { h with cells := fun n => if n = r then l else h.cells n }

/-- Oracle in which every script exists, is executable, and exits 0. -/
def w_ok : World :=
  { pathExists := fun _ => true,
    isExecutable := fun _ => true,
    run := fun _ _ => RunResult.completed 0 "" "",
    now := "2025-08-01T00:00:00" }

/-- Oracle in which no script path exists on disk. -/
def w_missing : World :=
  { pathExists := fun _ => false,
    isExecutable := fun _ => false,
    run := fun _ _ => RunResult.completed 0 "" "",
    now := "2025-08-01T00:00:00" }

/-- Engine state extending the default whitelist with a script-less entry
under a trigger other than `acknowledge incident`. -/
def st_noop : EngineState :=
  { initial_state with command_whitelist := initial_state.command_whitelist ++
      [("custom noop", { script := none, description := "No-op entry",
                         requires_confirmation := true })] }

/-- Sample heap with one allocated (empty) history list. -/
def heap0 : Heap := { cells := fun _ => [], next := 1 }

/-- Engine reference pointing at the history list of `heap0`. -/
def engine_ref0 : EngineRef := { histRef := 0 }

theorem leadMatch_iff (n h : List Char) : leadMatch n h = true ↔ n <+: h := by
  induction n generalizing h with
  | nil => simp [leadMatch]
  | cons a n ih =>
    cases h with
    | nil => simp [leadMatch]
    | cons b h => simp [leadMatch, List.cons_prefix_cons, ih]

theorem subSearch_iff (n h : List Char) : subSearch n h = true ↔ n <:+: h := by
  induction h with
  | nil => simp [subSearch, leadMatch_iff]
  | cons b h ih => simp [subSearch, leadMatch_iff, ih, List.infix_cons_iff]

theorem strContains_iff (haystack needle : String) :
    strContains haystack needle = true ↔ needle.data <:+: haystack.data := by
  simp [strContains, subSearch_iff]

theorem find?_first {α : Type} (p : α → Bool) (l₁ l₂ : List α) (x : α)
    (hx : p x = true) (hmin : ∀ y ∈ l₁, p y = false) :
    (l₁ ++ x :: l₂).find? p = some x := by
  induction l₁ with
  | nil => simpa using List.find?_cons_of_pos l₂ hx
  | cons a l ih =>
    have ha : p a = false := hmin a (List.mem_cons_self a l)
    rw [List.cons_append, List.find?_cons_of_neg _ (by simp [ha])]
    exact ih (fun y hy => hmin y (List.mem_cons_of_mem a hy))

theorem dict_get_set_self {α : Type} (l : List (String × α)) (k : String) (v : α) :
    dict_get (dict_set l k v) k = some v := by
  induction l with
  | nil => simp [dict_set, dict_get]
  | cons q l ih =>
    by_cases h : q.1 = k
    · simp [dict_set, dict_get, h]
    · simp [dict_set, dict_get, h, ih]

theorem dict_get_set_other {α : Type} (l : List (String × α)) (k k' : String) (v : α)
    (hne : k' ≠ k) :
    dict_get (dict_set l k v) k' = dict_get l k' := by
  induction l with
  | nil => simp [dict_set, dict_get, Ne.symm hne]
  | cons q l ih =>
    by_cases h : q.1 = k
    · simp [dict_set, dict_get, h, Ne.symm hne]
    · simp only [dict_set, dict_get, if_neg h]
      by_cases h' : q.1 = k'
      · simp [dict_get, h']
      · simp [dict_get, h', ih]

theorem strJoin_mem_inf (sep : String) (l : List String) (a : String) (ha : a ∈ l) :
    a.data <:+: (strJoin sep l).data := by
  induction l with
  | nil => simp at ha
  | cons s l ih =>
    cases l with
    | nil =>
      rw [List.mem_singleton] at ha
      subst ha
      exact List.infix_rfl
    | cons s2 l2 =>
      rcases List.mem_cons.mp ha with h | h
      · subst h
        refine ⟨[], (sep ++ strJoin sep (s2 :: l2)).data, ?_⟩
        simp [strJoin]
      · rcases ih h with ⟨u, v, huv⟩
        refine ⟨(s ++ sep).data ++ u, v, ?_⟩
        simp only [strJoin, String.data_append, List.append_assoc]
        rw [← List.append_assoc u, huv]

theorem match_command_none (wl : List (String × CommandConfig)) (text : String)
    (h1 : ∀ q ∈ wl, strContains text q.1 = false)
    (h2 : ∀ q ∈ fuzzy_matches, strContains text q.1 = false) :
    match_command wl text = none := by
  have e1 : wl.find? (fun p => strContains text p.1) = none :=
    List.find?_eq_none.mpr (fun q hq => by simp [h1 q hq])
  have e2 : fuzzy_matches.find? (fun p => strContains text p.1) = none :=
    List.find?_eq_none.mpr (fun q hq => by simp [h2 q hq])
  simp [match_command, e1, e2]

/-- C7 as stated is false: `add_custom_command` has no overwrite flag and
silently replaces the existing `start patching` entry. -/
theorem add_custom_command_silent_replace_cex :
    dict_get initial_state.command_whitelist "start patching" =
      some { script := some "scripts/patch_r2s.sh",
             description := "Initiate automated patching process",
             requires_confirmation := false }
    ∧ dict_get (add_custom_command initial_state "start patching" "scripts/other.sh"
          "Custom command").command_whitelist "start patching" =
        some { script := some "scripts/other.sh", description := "Custom command",
               requires_confirmation := true } :=
  ⟨by decide, by decide⟩

/-- C7 (amended): registering under an existing trigger unconditionally
replaces that entry with the new script, description, and
`requires_confirmation = true`, leaving every other key unchanged; there is
no overwrite flag and no failure path. -/
theorem add_custom_command_overwrite_semantics (st : EngineState)
    (trigger script_path description : String) :
    dict_get (add_custom_command st trigger script_path description).command_whitelist
        (pyLower trigger) =
      some { script := some script_path, description := description,
             requires_confirmation := true }
    ∧ ∀ k, k ≠ pyLower trigger →
        dict_get (add_custom_command st trigger script_path description).command_whitelist k =
          dict_get st.command_whitelist k := by
  constructor
  · simp [add_custom_command, dict_get_set_self]
  · intro k hk
    simp [add_custom_command, dict_get_set_other _ _ _ _ hk]

/-- Witness for the amended C7 at a concrete registration over the default
whitelist. -/
theorem add_custom_command_overwrite_semantics_witness :
    dict_get (add_custom_command initial_state "start patching" "scripts/other.sh"
        "Custom command").command_whitelist (pyLower "start patching") =
      some { script := some "scripts/other.sh", description := "Custom command",
             requires_confirmation := true }
    ∧ dict_get (add_custom_command initial_state "start patching" "scripts/other.sh"
        "Custom command").command_whitelist "status report" =
      dict_get initial_state.command_whitelist "status report" :=
  ⟨(add_custom_command_overwrite_semantics initial_state "start patching"
      "scripts/other.sh" "Custom command").1,
   (add_custom_command_overwrite_semantics initial_state "start patching"
      "scripts/other.sh" "Custom command").2 "status report" (by decide)⟩

/-- C8 as stated is false: a script-less entry whose trigger is not
`acknowledge incident` reaches the generic no-action-configured fallback
(empty effect trace: no built-in handler runs, nothing is appended to the
acknowledgment log). -/
theorem scriptless_entry_fallback_cex :
    (process_voice_command [] w_ok st_noop "custom noop" none).response =
      "Command 'custom noop' recognized but no action configured."
    ∧ (process_voice_command [] w_ok st_noop "custom noop" none).effects = [] :=
  ⟨by decide, by decide⟩

/-- C8 (amended): dispatch is keyed on the trigger name, not on script
absence: an entry named `acknowledge incident` runs the built-in
acknowledgment handler (even if a script is configured), and any other entry
whose script path is falsy returns the generic no-action-configured message
with no side effects. -/
theorem dispatch_keyed_on_trigger_name (environ : List (String × String)) (w : World)
    (trigger : String) (cfg : CommandConfig) (text : String) (cve : Option String) :
    (trigger = "acknowledge incident" →
      execute_command environ w (trigger, cfg) text cve =
        handle_acknowledgment environ w cve)
    ∧ (trigger ≠ "acknowledge incident" → pyTruthy cfg.script = false →
      execute_command environ w (trigger, cfg) text cve =
        { message := "Command '" ++ trigger ++ "' recognized but no action configured.",
          effects := [], environ_after := environ }) := by
  constructor
  · intro h; simp [execute_command, h]
  · intro h hs; simp [execute_command, h, hs]

/-- Witness for the amended C8: the ack trigger routes to the built-in
handler even with a script configured, and a script-less custom trigger hits
the fallback. -/
theorem dispatch_keyed_on_trigger_name_witness :
    execute_command [] w_ok ("acknowledge incident",
        { script := some "scripts/patch_r2s.sh", description := "d",
          requires_confirmation := false }) "acknowledge incident" none =
      handle_acknowledgment [] w_ok none
    ∧ execute_command [] w_ok ("custom noop",
        { script := none, description := "No-op entry", requires_confirmation := true })
        "custom noop" none =
      { message := "Command 'custom noop' recognized but no action configured.",
        effects := [], environ_after := [] } :=
  ⟨(dispatch_keyed_on_trigger_name [] w_ok "acknowledge incident"
      { script := some "scripts/patch_r2s.sh", description := "d",
        requires_confirmation := false } "acknowledge incident" none).1 rfl,
   (dispatch_keyed_on_trigger_name [] w_ok "custom noop"
      { script := none, description := "No-op entry", requires_confirmation := true }
      "custom noop" none).2 (by decide) (by decide)⟩

/-- C10: `get_command_history` returns a fresh copy; overwriting the returned
list with any contents leaves the engine's own history cell unchanged, and a
later `get_command_history` still observes the original contents. -/
theorem history_copy_isolated (h : Heap) (e : EngineRef) (hv : e.histRef < h.next)
    (l' : List LogEntry) :
    (get_command_history h e).1 ≠ e.histRef
    ∧ (heap_write (get_command_history h e).2 (get_command_history h e).1 l').cells
        e.histRef = h.cells e.histRef
    ∧ (get_command_history (heap_write (get_command_history h e).2
          (get_command_history h e).1 l') e).2.cells
        (get_command_history (heap_write (get_command_history h e).2
          (get_command_history h e).1 l') e).1
        = h.cells e.histRef := by
  have hne : e.histRef ≠ h.next := Nat.ne_of_lt hv
  refine ⟨fun hc => hne hc.symm, ?_, ?_⟩
  · simp [get_command_history, list_copy, heap_write, hne]
  · simp [get_command_history, list_copy, heap_write, hne]

/-- Witness for C10 on a one-cell heap mutated with a one-entry list. -/
theorem history_copy_isolated_witness :
    (get_command_history heap0 engine_ref0).1 ≠ engine_ref0.histRef
    ∧ (heap_write (get_command_history heap0 engine_ref0).2
        (get_command_history heap0 engine_ref0).1
        [{ timestamp := "2025-08-01T00:00:00", command := "ack", cve_id := none,
           source := "voice_command" }]).cells engine_ref0.histRef
        = heap0.cells engine_ref0.histRef
    ∧ (get_command_history (heap_write (get_command_history heap0 engine_ref0).2
          (get_command_history heap0 engine_ref0).1
          [{ timestamp := "2025-08-01T00:00:00", command := "ack", cve_id := none,
             source := "voice_command" }]) engine_ref0).2.cells
        (get_command_history (heap_write (get_command_history heap0 engine_ref0).2
          (get_command_history heap0 engine_ref0).1
          [{ timestamp := "2025-08-01T00:00:00", command := "ack", cve_id := none,
             source := "voice_command" }]) engine_ref0).1
        = heap0.cells engine_ref0.histRef :=
  history_copy_isolated heap0 engine_ref0 (by decide)
    [{ timestamp := "2025-08-01T00:00:00", command := "ack", cve_id := none,
       source := "voice_command" }]

/-- C1 as stated is false: with the configured script present, executable,
and exiting 0, the success message for the `start patching` scenario is built
from the trigger phrase, not from the description field. -/
theorem script_success_message_lacks_description_cex :
    (process_voice_command [] w_ok initial_state "please start patching now"
        (some "CVE-2025-55182")).response = "start patching completed successfully."
    ∧ strContains (process_voice_command [] w_ok initial_state "please start patching now"
        (some "CVE-2025-55182")).response "Initiate automated patching process" = false :=
  ⟨by decide, by decide⟩

/-- C1 (amended): for a script whose existence and executability checks pass
and whose child process completes, exit code 0 yields the success message
built from the trigger phrase and any other exit code yields the fixed
failure message; both are independent of the captured stdout and stderr. -/
theorem script_result_message_built_from_trigger (environ : List (String × String))
    (w : World) (script_path command_name : String) (cve : Option String)
    (rc : Int) (out err : String)
    (h1 : w.pathExists script_path = true) (h2 : w.isExecutable script_path = true)
    (hr : w.run script_path (child_env environ cve w.now) =
      RunResult.completed rc out err) :
    (execute_script environ w script_path command_name cve).message =
      if rc = 0 then command_name ++ " completed successfully."
      else command_name ++ " failed. Check logs for details." := by
  by_cases hrc : rc = 0 <;> simp [execute_script, h1, h2, hr, hrc]

/-- Witness for the amended C1: the `start patching` script exiting 0 yields
exactly the trigger-based success message. -/
theorem script_result_message_built_from_trigger_witness :
    (execute_script [] w_ok "scripts/patch_r2s.sh" "start patching"
        (some "CVE-2025-55182")).message = "start patching completed successfully." := by
  have h := script_result_message_built_from_trigger [] w_ok "scripts/patch_r2s.sh"
    "start patching" (some "CVE-2025-55182") 0 "" "" (by decide) (by decide) (by decide)
  simpa using h

/-- C2 as stated is false: an input containing two registered triggers
resolves to the earlier-registered one, so it does not resolve to the entry
of the later trigger it also contains. -/
theorem match_first_trigger_wins_cex :
    strContains "quarantine servers and start patching" "quarantine servers" = true
    ∧ (match_command default_whitelist "quarantine servers and start patching").map
        Prod.fst = some "start patching"
    ∧ (match_command default_whitelist "quarantine servers and start patching").map
        Prod.fst ≠ some "quarantine servers" :=
  ⟨by decide, by decide, by decide⟩

/-- C2 (amended): resolution is first-match-wins in insertion order: the
input resolves to the first registered trigger (in whitelist order) occurring
in it as a substring, and only when no registered trigger occurs does it
resolve to the entry of the target of the first fuzzy keyword (in table
order) occurring in it, provided that target is registered. -/
theorem match_resolution_order :
    (∀ (l₁ l₂ : List (String × CommandConfig)) (t : String) (cfg : CommandConfig)
        (text : String),
      strContains text t = true →
      (∀ q ∈ l₁, strContains text q.1 = false) →
      match_command (l₁ ++ (t, cfg) :: l₂) text = some (t, cfg))
    ∧ (∀ (wl : List (String × CommandConfig)) (f₁ f₂ : List (String × String))
        (k t text : String) (cfg : CommandConfig),
      fuzzy_matches = f₁ ++ (k, t) :: f₂ →
      (∀ q ∈ wl, strContains text q.1 = false) →
      strContains text k = true →
      (∀ q ∈ f₁, strContains text q.1 = false) →
      dict_get wl t = some cfg →
      match_command wl text = some (t, cfg)) := by
  constructor
  · intro l₁ l₂ t cfg text ht hmin
    have e1 : (l₁ ++ (t, cfg) :: l₂).find? (fun p => strContains text p.1) =
        some (t, cfg) :=
      find?_first _ l₁ l₂ (t, cfg) ht hmin
    simp [match_command, e1]
  · intro wl f₁ f₂ k t text cfg hf hwl hk hmin hget
    have e1 : wl.find? (fun p => strContains text p.1) = none :=
      List.find?_eq_none.mpr (fun q hq => by simp [hwl q hq])
    have e2 : fuzzy_matches.find? (fun p => strContains text p.1) = some (k, t) := by
      rw [hf]; exact find?_first _ f₁ f₂ (k, t) hk hmin
    simp [match_command, e1, e2, hget]

/-- Witness for the amended C2 over the default registry: a direct match on
the second registered trigger and a fuzzy match on the `ack` keyword. -/
theorem match_resolution_order_witness :
    match_command default_whitelist "quarantine servers please" =
      some ("quarantine servers",
        { script := some "scripts/isolate.sh",
          description := "Isolate affected systems",
          requires_confirmation := true })
    ∧ match_command default_whitelist "ack" =
      some ("acknowledge incident",
        { script := none, description := "Log incident acknowledgment",
          requires_confirmation := false }) := by
  constructor
  · exact match_resolution_order.1
      [("start patching",
        { script := some "scripts/patch_r2s.sh",
          description := "Initiate automated patching process",
          requires_confirmation := false })]
      [("acknowledge incident",
        { script := none, description := "Log incident acknowledgment",
          requires_confirmation := false }),
       ("emergency shutdown",
        { script := some "scripts/emergency_shutdown.sh",
          description := "Emergency system shutdown",
          requires_confirmation := true }),
       ("status report",
        { script := some "scripts/status_check.sh",
          description := "Generate system status report",
          requires_confirmation := false })]
      "quarantine servers"
      { script := some "scripts/isolate.sh", description := "Isolate affected systems",
        requires_confirmation := true }
      "quarantine servers please" (by decide) (by decide)
  · exact match_resolution_order.2 default_whitelist
      [("patch", "start patching"), ("quarantine", "quarantine servers"),
       ("isolate", "quarantine servers"), ("acknowledge", "acknowledge incident")]
      [("shutdown", "emergency shutdown"), ("status", "status report"),
       ("report", "status report")]
      "ack" "acknowledge incident" "ack"
      { script := none, description := "Log incident acknowledgment",
        requires_confirmation := false }
      (by decide) (by decide) (by decide) (by decide) (by decide)

/-- C3: an input whose normalized form contains no registered trigger and no
fuzzy keyword as a substring yields the help response, and that response
lists every trigger currently in the registry. -/
theorem unmatched_input_help_response (environ : List (String × String)) (w : World)
    (st : EngineState) (text : String) (cve : Option String)
    (h1 : ∀ q ∈ st.command_whitelist, strContains (normalize text) q.1 = false)
    (h2 : ∀ q ∈ fuzzy_matches, strContains (normalize text) q.1 = false) :
    (process_voice_command environ w st text cve).response =
      "Unknown command. Available commands: '" ++
        strJoin "', '" (st.command_whitelist.map Prod.fst) ++ "'. Please try again."
    ∧ ∀ q ∈ st.command_whitelist,
        strContains (process_voice_command environ w st text cve).response q.1 = true := by
  have hm : match_command st.command_whitelist (normalize text) = none :=
    match_command_none _ _ h1 h2
  have hresp : (process_voice_command environ w st text cve).response =
      "Unknown command. Available commands: '" ++
        strJoin "', '" (st.command_whitelist.map Prod.fst) ++ "'. Please try again." := by
    simp [process_voice_command, log_command, hm, get_help_response]
  refine ⟨hresp, ?_⟩
  intro q hq
  rw [hresp]
  apply (strContains_iff _ _).mpr
  have hmem : q.1 ∈ st.command_whitelist.map Prod.fst :=
    List.mem_map_of_mem Prod.fst hq
  rcases strJoin_mem_inf "', '" _ q.1 hmem with ⟨u, v, huv⟩
  refine ⟨"Unknown command. Available commands: '".data ++ u,
          v ++ "'. Please try again.".data, ?_⟩
  simp only [String.data_append]
  rw [← huv]
  simp [List.append_assoc]

/-- Witness for C3: the input `xyzzy` matches nothing and the response lists
all five default triggers. -/
theorem unmatched_input_help_response_witness :
    (process_voice_command [] w_ok initial_state "xyzzy" none).response =
      "Unknown command. Available commands: '" ++
        strJoin "', '" (initial_state.command_whitelist.map Prod.fst) ++
        "'. Please try again."
    ∧ ∀ q ∈ initial_state.command_whitelist,
        strContains (process_voice_command [] w_ok initial_state "xyzzy" none).response
          q.1 = true :=
  unmatched_input_help_response [] w_ok initial_state "xyzzy" none
    (by decide) (by decide)

/-- C4: any input resolving to the `acknowledge incident` entry returns the
fixed confirmation string and produces exactly one acknowledgment-log append
whose line carries the timestamp, the fixed phrase, and the correlation id
when a truthy one is given; no existence check, no executability check, and
no subprocess spawn occur. -/
theorem acknowledge_builtin_behavior (environ : List (String × String)) (w : World)
    (st : EngineState) (text : String) (cve : Option String) (cfg : CommandConfig)
    (hm : match_command st.command_whitelist (normalize text) =
      some ("acknowledge incident", cfg)) :
    (process_voice_command environ w st text cve).response =
      "Incident acknowledged and logged."
    ∧ (process_voice_command environ w st text cve).effects =
      [Effect.appendAckLog (w.now ++ ": " ++
        (if pyTruthy cve then
          "Incident acknowledged at " ++ w.now ++ " for " ++ cve.getD ""
         else "Incident acknowledged at " ++ w.now) ++ "\n")] := by
  constructor <;>
    simp [process_voice_command, log_command, hm, execute_command,
      handle_acknowledgment]

/-- Witness for C4: the fuzzy input `ack` with a correlation id appends the
expected line and returns the fixed confirmation. -/
theorem acknowledge_builtin_behavior_witness :
    (process_voice_command [] w_ok initial_state "ack" (some "CVE-2025-55182")).response =
      "Incident acknowledged and logged."
    ∧ (process_voice_command [] w_ok initial_state "ack"
        (some "CVE-2025-55182")).effects =
      [Effect.appendAckLog
        "2025-08-01T00:00:00: Incident acknowledged at 2025-08-01T00:00:00 for CVE-2025-55182\n"] := by
  have h := acknowledge_builtin_behavior [] w_ok initial_state "ack"
    (some "CVE-2025-55182")
    { script := none, description := "Log incident acknowledgment",
      requires_confirmation := false }
    (by decide)
  exact ⟨h.1, by rw [h.2]; decide⟩

/-- C5: every fault in the dispatch path of a matched script-backed command
is converted into a result message rather than an exception: missing script,
non-executable script, timeout, non-zero exit, and any other raised
exception. -/
theorem dispatch_faults_return_messages (environ : List (String × String)) (w : World)
    (trigger : String) (cfg : CommandConfig) (text : String) (cve : Option String)
    (script_path : String) (hs : cfg.script = some script_path)
    (hne : trigger ≠ "acknowledge incident") (hnonempty : script_path ≠ "") :
    (w.pathExists script_path = false →
      (execute_command environ w (trigger, cfg) text cve).message =
        "Script " ++ script_path ++ " not found. Please check configuration.")
    ∧ (w.pathExists script_path = true → w.isExecutable script_path = false →
      (execute_command environ w (trigger, cfg) text cve).message =
        "Script " ++ script_path ++ " is not executable.")
    ∧ (w.pathExists script_path = true → w.isExecutable script_path = true →
      w.run script_path (child_env environ cve w.now) = RunResult.timedOut →
      (execute_command environ w (trigger, cfg) text cve).message =
        trigger ++ " timed out after 5 minutes.")
    ∧ (∀ rc out err, w.pathExists script_path = true →
      w.isExecutable script_path = true →
      w.run script_path (child_env environ cve w.now) = RunResult.completed rc out err →
      rc ≠ 0 →
      (execute_command environ w (trigger, cfg) text cve).message =
        trigger ++ " failed. Check logs for details.")
    ∧ (∀ e, w.pathExists script_path = true → w.isExecutable script_path = true →
      w.run script_path (child_env environ cve w.now) = RunResult.raised e →
      (execute_command environ w (trigger, cfg) text cve).message =
        "Error executing " ++ trigger ++ ": " ++ e) := by
  have hexec : execute_command environ w (trigger, cfg) text cve =
      execute_script environ w script_path trigger cve := by
    simp [execute_command, hne, hs, pyTruthy, hnonempty]
  refine ⟨?_, ?_, ?_, ?_, ?_⟩
  · intro hp
    rw [hexec]; simp [execute_script, hp]
  · intro hp hx
    rw [hexec]; simp [execute_script, hp, hx]
  · intro hp hx hr
    rw [hexec]; simp [execute_script, hp, hx, hr]
  · intro rc out err hp hx hr hrc
    rw [hexec]; simp [execute_script, hp, hx, hr, hrc]
  · intro e hp hx hr
    rw [hexec]; simp [execute_script, hp, hx, hr]

/-- Witness for C5: a missing script surfaces as the configuration-error
message. -/
theorem dispatch_faults_return_messages_witness :
    (execute_command [] w_missing ("start patching",
        { script := some "scripts/patch_r2s.sh",
          description := "Initiate automated patching process",
          requires_confirmation := false }) "start patching now" none).message =
      "Script scripts/patch_r2s.sh not found. Please check configuration." :=
  (dispatch_faults_return_messages [] w_missing "start patching"
    { script := some "scripts/patch_r2s.sh",
      description := "Initiate automated patching process",
      requires_confirmation := false }
    "start patching now" none "scripts/patch_r2s.sh" rfl (by decide) (by decide)).1 rfl

/-- C6: each `process_voice_command` call appends exactly one entry to the
in-memory history (built before matching, so this holds for unmatched inputs
as well), existing entries are preserved verbatim, and `add_custom_command`
leaves the history untouched. -/
theorem history_append_per_command :
    (∀ (environ : List (String × String)) (w : World) (st : EngineState)
        (text : String) (cve : Option String),
      (process_voice_command environ w st text cve).state_after.command_history =
        st.command_history ++
          [{ timestamp := w.now, command := normalize text, cve_id := cve,
             source := "voice_command" }])
    ∧ (∀ (st : EngineState) (trigger script_path description : String),
      (add_custom_command st trigger script_path description).command_history =
        st.command_history) := by
  constructor
  · intro environ w st text cve
    cases hm : match_command st.command_whitelist (normalize text) <;>
      simp [process_voice_command, log_command, hm]
  · intro st trigger script_path description
    simp [add_custom_command]

/-- C9 as stated is false: a script execution without a correlation id spawns
a child whose environment carries no `CVE_ID` variable at all. -/
theorem child_env_no_cve_when_absent_cex :
    (execute_script [("PATH", "/usr/bin")] w_ok "scripts/patch_r2s.sh"
        "start patching" none).effects =
      [Effect.checkExists "scripts/patch_r2s.sh",
       Effect.checkExecutable "scripts/patch_r2s.sh",
       Effect.spawn "scripts/patch_r2s.sh"
         [("PATH", "/usr/bin"), ("TIMESTAMP", "2025-08-01T00:00:00")]]
    ∧ dict_get (child_env [("PATH", "/usr/bin")] none "2025-08-01T00:00:00")
        "CVE_ID" = none :=
  ⟨by decide, by decide⟩

/-- C9 (amended): a script execution that passes both checks spawns a child
whose environment is the parent copy with `TIMESTAMP` always set to the
current time, `CVE_ID` set to the correlation id exactly when a truthy
(non-empty) one is given, and every other key reading through to the parent;
the parent environment itself is unchanged by the execution. -/
theorem child_env_augmentation (environ : List (String × String)) (w : World)
    (script_path command_name : String) (cve : Option String)
    (h1 : w.pathExists script_path = true) (h2 : w.isExecutable script_path = true) :
    (Effect.spawn script_path (child_env environ cve w.now) ∈
      (execute_script environ w script_path command_name cve).effects)
    ∧ dict_get (child_env environ cve w.now) "TIMESTAMP" = some w.now
    ∧ (∀ c, cve = some c → c ≠ "" →
        dict_get (child_env environ cve w.now) "CVE_ID" = some c)
    ∧ (pyTruthy cve = false →
        dict_get (child_env environ cve w.now) "CVE_ID" = dict_get environ "CVE_ID")
    ∧ (∀ k, k ≠ "TIMESTAMP" → k ≠ "CVE_ID" →
        dict_get (child_env environ cve w.now) k = dict_get environ k)
    ∧ (execute_script environ w script_path command_name cve).environ_after =
        environ := by
  refine ⟨?_, ?_, ?_, ?_, ?_, ?_⟩
  · cases hr : w.run script_path (child_env environ cve w.now) with
    | completed rc out err =>
      by_cases hrc : rc = 0 <;> simp [execute_script, h1, h2, hr, hrc]
    | timedOut => simp [execute_script, h1, h2, hr]
    | raised e => simp [execute_script, h1, h2, hr]
  · exact dict_get_set_self _ _ _
  · intro c hc hne
    subst hc
    have hstep : child_env environ (some c) w.now =
        dict_set (dict_set environ "CVE_ID" c) "TIMESTAMP" w.now := by
      simp [child_env, pyTruthy, hne]
    rw [hstep, dict_get_set_other _ _ _ _ (by decide)]
    exact dict_get_set_self _ _ _
  · intro hf
    simp only [child_env, hf, Bool.false_eq_true, if_false]
    exact dict_get_set_other environ "TIMESTAMP" "CVE_ID" w.now (by decide)
  · intro k hk1 hk2
    by_cases hp : pyTruthy cve = true
    · simp [child_env, hp, dict_get_set_other _ _ _ _ hk1,
        dict_get_set_other _ _ _ _ hk2]
    · simp [child_env, hp, dict_get_set_other _ _ _ _ hk1]
  · cases hr : w.run script_path (child_env environ cve w.now) with
    | completed rc out err =>
      by_cases hrc : rc = 0 <;> simp [execute_script, h1, h2, hr, hrc]
    | timedOut => simp [execute_script, h1, h2, hr]
    | raised e => simp [execute_script, h1, h2, hr]

/-- Witness for the amended C9 with a one-variable parent environment and a
concrete correlation id. -/
theorem child_env_augmentation_witness :
    (Effect.spawn "scripts/patch_r2s.sh"
      (child_env [("PATH", "/usr/bin")] (some "CVE-2025-55182") w_ok.now) ∈
      (execute_script [("PATH", "/usr/bin")] w_ok "scripts/patch_r2s.sh"
        "start patching" (some "CVE-2025-55182")).effects)
    ∧ dict_get (child_env [("PATH", "/usr/bin")] (some "CVE-2025-55182") w_ok.now)
        "TIMESTAMP" = some w_ok.now
    ∧ dict_get (child_env [("PATH", "/usr/bin")] (some "CVE-2025-55182") w_ok.now)
        "CVE_ID" = some "CVE-2025-55182"
    ∧ dict_get (child_env [("PATH", "/usr/bin")] (some "CVE-2025-55182") w_ok.now)
        "PATH" = dict_get [("PATH", "/usr/bin")] "PATH"
    ∧ (execute_script [("PATH", "/usr/bin")] w_ok "scripts/patch_r2s.sh"
        "start patching" (some "CVE-2025-55182")).environ_after =
      [("PATH", "/usr/bin")] := by
  have h := child_env_augmentation [("PATH", "/usr/bin")] w_ok "scripts/patch_r2s.sh"
    "start patching" (some "CVE-2025-55182") (by decide) (by decide)
  exact ⟨h.1, h.2.1, h.2.2.1 "CVE-2025-55182" rfl (by decide),
    h.2.2.2.2.1 "PATH" (by decide) (by decide), h.2.2.2.2.2⟩

end CommandEngine
